import Mathlib

/-!
Verification development for the pv-pan-tool repository.

Shallow embedding of the core pipeline of `src/pv_pan_tool`:

* `parser.py`  — the .PAN format decoder (`parse_pan_structure`), the numeric
  field parser (`parse_numeric_value`), the field mapper (`map_pan_data`),
  the change-tracking registry (`get_new_files`, `update_registry`) and the
  per-file driver (`parse_file`).
* `models.py`  — the pydantic record types (`PVModule` and its parts).
* `database.py` — the SQLite repository (`insert_module`, `update_module`,
  `module_exists`, `get_module_id_by_unique_id`) with its derived-metric
  computation.

Modelling conventions:

* Python floats are modelled as rationals (`ℚ`); no claim in scope depends on
  rounding, infinities or NaN payloads, and the float literals appearing in
  .PAN files are decimal, so every arithmetic step performed by the code is
  exact on the values of interest.
* Python dictionaries are association lists (`List (String × Node)`) with the
  exact CPython update semantics: an existing key is overwritten in place, a
  new key is appended at the end.
* Python string operations are re-implemented by structural recursion over
  `List Char` so that every definition evaluates inside the kernel; each one
  is named after the Python operation it models.
* Values held by record attributes are modelled by `PyV`: pydantic does not
  validate plain attribute assignment, so after `setattr` a declared
  `Optional[float]` attribute may hold a float, a string, a list of strings
  or a parsed sub-dictionary, and the embedding keeps all of those shapes.
* Exceptions are modelled with `Except String`; the string is the Python
  exception class name.  A surrounding handler corresponds to a `match` on
  the `Except` value.
* Filesystem and clock interactions (`Path.stat`, hashing, `datetime.now`)
  are passed in as explicit arguments (sizes, mtimes, hashes, timestamps as
  naturals), since the code only ever copies them around.
-/

set_option autoImplicit false

/-! ## Python string primitives (structural, kernel-evaluable) -/

/-- Python `str.strip()` on the leading side: drop whitespace characters. -/
def dropSpaces : List Char → List Char
  | [] => []
  | c :: rest => if c.isWhitespace then dropSpaces rest else c :: rest

/-- Python `str.strip()`: whitespace removed from both ends. -/
def pyStripChars (cs : List Char) : List Char :=
  ((dropSpaces cs.reverse).reverse |> dropSpaces)

/-- Python `str.strip()` lifted to `String`. -/
def pyStrip (s : String) : String := String.mk (pyStripChars s.data)

/-- Python prefix test `s.startswith(p)`. -/
def isPrefixChars : List Char → List Char → Bool
  | [], _ => true
  | _ :: _, [] => false
  | p :: ps, c :: cs => p = c && isPrefixChars ps cs

/-- Python `c in s` for a single character. -/
def containsChar (c : Char) : List Char → Bool
  | [] => false
  | x :: rest => x = c || containsChar c rest

/-- Python `s.split(sep, 1)` for a one-character separator: the text before
the first occurrence and the text after it, or `Option.none` when the
separator does not occur. -/
def splitFirst (sep : Char) : List Char → Option (List Char × List Char)
  | [] => Option.none
  | c :: rest =>
      if c = sep then some ([], rest)
      else
        match splitFirst sep rest with
        | some (a, b) => some (c :: a, b)
        | Option.none => Option.none

/-- Python `s.split(sep)` for a one-character separator (no limit). -/
def splitAll (sep : Char) : List Char → List (List Char)
  | [] => [[]]
  | c :: rest =>
      let r := splitAll sep rest
      if c = sep then [] :: r
      else
        match r with
        | h :: t => (c :: h) :: t
        | [] => [[c]]

/-- Python `s.replace(a, b)` for one-character arguments. -/
def replaceChar (a b : Char) : List Char → List Char
  | [] => []
  | c :: rest => (if c = a then b else c) :: replaceChar a b rest

/-- Python `str.splitlines` restricted to the `\n`, `\r\n` and `\r` endings:
normalise every ending to `\n` and split.  Python drops a trailing empty
segment where this keeps it; the decoder skips blank lines, so the
difference is unobservable. -/
def normNewlines : List Char → List Char
  | [] => []
  | [c] => if c = Char.ofNat 13 then [Char.ofNat 10] else [c]
  | c :: c2 :: rest =>
      if c = Char.ofNat 13 then
        if c2 = Char.ofNat 10 then Char.ofNat 10 :: normNewlines rest
        else Char.ofNat 10 :: normNewlines (c2 :: rest)
      else c :: normNewlines (c2 :: rest)

/-- Python `content.splitlines()` as used by the decoder. -/
def pySplitlines (s : String) : List (List Char) :=
  splitAll (Char.ofNat 10) (normNewlines s.data)

/-! ## Exact rational arithmetic in kernel-evaluable form

The Batteries library marks `Rat.add`, `Rat.mul`, `Rat.div` and `Rat.inv`
irreducible, so terms built from them do not evaluate inside the kernel.
`mkRat` does evaluate, so the embedding performs every rational operation
through `mkRat` on numerators and denominators; the lemmas `rMul_eq`,
`rDiv_eq` and `rAdd_eq` below prove that these are exactly ordinary
rational multiplication, division and addition, and the claim theorems are
stated through them in ordinary arithmetic. -/

/-- Rational multiplication, kernel-evaluable.  `rMul_eq` proves
`rMul a b = a * b`. -/
def rMul (a b : ℚ) : ℚ := mkRat (a.num * b.num) (a.den * b.den)

/-- Rational division, kernel-evaluable.  `rDiv_eq` proves
`rDiv a b = a / b` (with the `ℚ` convention `a / 0 = 0`). -/
def rDiv (a b : ℚ) : ℚ :=
  if 0 ≤ b.num then mkRat (a.num * (b.den : ℤ)) (a.den * b.num.natAbs)
  else mkRat (-(a.num * (b.den : ℤ))) (a.den * b.num.natAbs)

/-- Rational addition, kernel-evaluable.  `rAdd_eq` proves
`rAdd a b = a + b`. -/
def rAdd (a b : ℚ) : ℚ :=
  mkRat (a.num * (b.den : ℤ) + b.num * (a.den : ℤ)) (a.den * b.den)

theorem rMul_eq (a b : ℚ) : rMul a b = a * b := by
  rw [rMul, Rat.mkRat_eq_div]
  push_cast
  rw [← div_mul_div_comm, Rat.num_div_den, Rat.num_div_den]

theorem rAdd_eq (a b : ℚ) : rAdd a b = a + b := by
  rw [rAdd, Rat.mkRat_eq_div]
  push_cast
  rw [mul_comm ((b.num : ℚ)) ((a.den : ℚ))]
  rw [← div_add_div _ _ (by positivity : ((a.den : ℚ)) ≠ 0)
    (by positivity : ((b.den : ℚ)) ≠ 0)]
  rw [Rat.num_div_den, Rat.num_div_den]

theorem core_div (a b : ℚ) :
    ((a.num : ℚ) * (b.den : ℚ)) / ((a.den : ℚ) * (b.num : ℚ)) = a / b := by
  rw [← div_div, mul_div_right_comm, Rat.num_div_den, mul_div_assoc, ← inv_div,
    Rat.num_div_den, ← div_eq_mul_inv]

theorem rDiv_eq (a b : ℚ) : rDiv a b = a / b := by
  rw [rDiv]
  by_cases h : 0 ≤ b.num
  · rw [if_pos h, Rat.mkRat_eq_div]
    push_cast
    rw [Int.cast_natAbs, Int.cast_abs]
    rw [abs_of_nonneg (show (0 : ℚ) ≤ (b.num : ℚ) by exact_mod_cast h)]
    exact core_div a b
  · rw [if_neg h, Rat.mkRat_eq_div]
    push_cast
    rw [Int.cast_natAbs, Int.cast_abs]
    rw [abs_of_neg (show ((b.num : ℚ)) < 0 by exact_mod_cast not_le.mp h)]
    rw [mul_neg, neg_div_neg_eq]
    exact core_div a b

/-! ## Python float parsing -/

/-- Decimal digit run to a natural number. -/
def digitsToNat : List Char → ℕ → ℕ
  | [], acc => acc
  | c :: rest, acc => digitsToNat rest (acc * 10 + (c.toNat - 48))

/-- Nonempty all-digit check. -/
def allDigits : List Char → Bool
  | [] => false
  | [c] => c.isDigit
  | c :: c2 :: rest => c.isDigit && allDigits (c2 :: rest)

/-- Optional sign: returns the sign as `1` or `-1` and the remaining text. -/
def takeSign : List Char → ℤ × List Char
  | [] => (1, [])
  | c :: rest =>
      if c = Char.ofNat 45 then (-1, rest)
      else if c = Char.ofNat 43 then (1, rest)
      else (1, c :: rest)

/-- The mantissa of a Python float literal: `digits`, `digits.digits`,
`digits.` or `.digits`; returns the integer-part value, the fraction-part
value and the number of fraction digits. -/
def parseMantissaParts (cs : List Char) : Option (ℕ × ℕ × ℕ) :=
  match splitFirst (Char.ofNat 46) cs with
  | Option.none =>
      if allDigits cs then some (digitsToNat cs 0, 0, 0) else Option.none
  | some (ip, fp) =>
      if containsChar (Char.ofNat 46) fp then Option.none
      else if ip.isEmpty && fp.isEmpty then Option.none
      else if (ip.isEmpty || allDigits ip) && (fp.isEmpty || allDigits fp) then
        some (digitsToNat ip 0, digitsToNat fp 0, fp.length)
      else Option.none

/-- Python `float(s)`: optional surrounding whitespace, optional sign,
decimal mantissa, optional `e`/`E` exponent, valued exactly as the rational
`sign * (ip + fp / 10 ^ k) * 10 ^ (esign * e)` (assembled through `mkRat`
so that it evaluates in the kernel).  This is the exact-rational fragment of
the accepted grammar; the special values (`inf`, `nan`, underscore
separators) have no rational meaning and are rejected, and no claim in
scope exercises them. -/
def pyFloatChars (cs0 : List Char) : Option ℚ :=
  let cs := pyStripChars cs0
  let sr := takeSign cs
  let esplit :=
    match splitFirst (Char.ofNat 101) sr.2 with
    | some p => some p
    | Option.none => splitFirst (Char.ofNat 69) sr.2
  match esplit with
  | Option.none =>
      (parseMantissaParts sr.2).map (fun m =>
        mkRat (sr.1 * ((m.1 * 10 ^ m.2.2 + m.2.1 : ℕ) : ℤ)) (10 ^ m.2.2))
  | some (mant, expPart) =>
      match parseMantissaParts mant with
      | Option.none => Option.none
      | some m =>
          let er := takeSign expPart
          if allDigits er.2 then
            let e := digitsToNat er.2 0
            if 0 ≤ er.1 then
              some (mkRat (sr.1 * ((m.1 * 10 ^ m.2.2 + m.2.1 : ℕ) : ℤ) * 10 ^ e)
                (10 ^ m.2.2))
            else
              some (mkRat (sr.1 * ((m.1 * 10 ^ m.2.2 + m.2.1 : ℕ) : ℤ))
                (10 ^ m.2.2 * 10 ^ e))
          else Option.none

/-- Python `float(s)` on a `String`. -/
def pyFloat (s : String) : Option ℚ := pyFloatChars s.data

/-! ## The decoded tree (`parse_pan_structure` output) -/

/-- One node of the decoded .PAN tree, as built by `parse_pan_structure`
(`parser.py`): a plain string value, a comma-separated list of strings, or a
nested object dictionary.  A block dictionary carries its Python keys
verbatim, including the synthetic `__type__` entry that the decoder inserts
first into every opened object. -/
inductive Node where
  | scalar (s : String)
  | vals (xs : List String)
  | block (fields : List (String × Node))
deriving Repr

/-- CPython dict assignment `d[k] = v`: overwrite in place if the key exists
(keeping its position), otherwise append at the end. -/
def dictSet : List (String × Node) → String → Node → List (String × Node)
  | [], k, v => [(k, v)]
  | (k0, v0) :: rest, k, v =>
      if k0 = k then (k, v) :: rest else (k0, v0) :: dictSet rest k v

/-- CPython dict lookup (first — and by construction only — binding). -/
def dictFind : List (String × Node) → String → Option Node
  | [], _ => Option.none
  | (k0, v0) :: rest, k => if k0 = k then some v0 else dictFind rest k

/-- Fold the still-open blocks back into their parents at end of input.  The
Python decoder inserts each child dictionary into its parent when the block
opens and then mutates the shared child in place; the parent is never
touched while the child is open, so performing the insertion when the block
closes (or here, at end of input) produces the same dictionary. -/
def closeAll : List (String × Node) →
    List (List (String × Node) × String) → List (String × Node)
  | cur, [] => cur
  | cur, (parent, name) :: rest => closeAll (dictSet parent name (Node.block cur)) rest

/-- The line loop of `PANFileParser.parse_pan_structure` (`parser.py`
lines 266-306).  `cur` is the dictionary the Python variable `current`
aliases; `stack` holds, innermost first, each suspended parent dictionary
together with the key under which the open child is stored into it.
A `PVObject_<Name>=<Type>` line opens a block (no stripping is applied to
the name or type pieces, exactly as in the source); an `End of PVObject`
line pops the stack when it is nonempty; any other line containing `=` is
split at the first `=`, both pieces stripped, and a comma-containing value
becomes a list of stripped pieces; lines without `=` are ignored. -/
def runLines : List (List Char) → List (String × Node) →
    List (List (String × Node) × String) → List (String × Node)
  | [], cur, stack => closeAll cur stack
  | line :: ls, cur, stack =>
      let s := pyStripChars line
      if s.isEmpty then
        runLines ls cur stack
      else if isPrefixChars "PVObject_".data s then
        match splitFirst (Char.ofNat 61) s with
        | Option.none => runLines ls cur stack
        | some (p0, p1) =>
            runLines ls [("__type__", Node.scalar (String.mk p1))]
              ((cur, String.mk (p0.drop 9)) :: stack)
      else if isPrefixChars "End of PVObject".data s then
        match stack with
        | [] => runLines ls cur []
        | (parent, name) :: rest =>
            runLines ls (dictSet parent name (Node.block cur)) rest
      else if containsChar (Char.ofNat 61) s then
        match splitFirst (Char.ofNat 61) s with
        | some (k0, v0) =>
            let k := String.mk (pyStripChars k0)
            let v := pyStripChars v0
            if containsChar (Char.ofNat 44) v then
              runLines ls
                (dictSet cur k (Node.vals ((splitAll (Char.ofNat 44) v).map
                  (fun p => String.mk (pyStripChars p))))) stack
            else
              runLines ls (dictSet cur k (Node.scalar (String.mk v))) stack
        | Option.none => runLines ls cur stack
      else
        runLines ls cur stack

/-- `PANFileParser.parse_pan_structure`: decode raw text into the root
dictionary.  Total — the Python body contains no raising operation (every
index is guarded), so decoding never raises. -/
def parse_pan_structure (content : String) : List (String × Node) :=
  runLines (pySplitlines content) [] []


/-! ## Python runtime values held by record attributes

`models.py` declares most attributes `Optional[float]`, but the mapper in
`parser.py` assigns through `setattr`, which pydantic (v1 and v2 alike) does
not validate unless `validate_assignment` is configured — and it is not.  On
a failed numeric parse the mapper assigns the raw decoded value, so an
attribute can end up holding `None`, a float, a string, a list of strings,
or a decoded sub-dictionary.  `PyV` covers exactly these shapes. -/
inductive PyV where
  | none
  | num (q : ℚ)
  | str (s : String)
  | vals (xs : List String)
  | dict (fs : List (String × Node))
deriving Repr

/-- Inject a decoded tree value into an attribute value (what `setattr`
stores on the raw-value fallback path). -/
def nodeToV : Node → PyV
  | Node.scalar s => PyV.str s
  | Node.vals xs => PyV.vals xs
  | Node.block fs => PyV.dict fs

/-- Python truthiness of an attribute value: `None`, `0.0`, the empty
string, the empty list and the empty dict are falsy. -/
def truthy : PyV → Bool
  | PyV.none => false
  | PyV.num q => q != 0
  | PyV.str s => !s.data.isEmpty
  | PyV.vals xs => !xs.isEmpty
  | PyV.dict fs => !fs.isEmpty

/-- Python `float(x)` applied to an attribute value: succeeds on numbers and
numeric strings; `None`, lists and dicts raise `TypeError` (and non-numeric
strings `ValueError`), which every caller in scope catches — so those cases
are `Option.none` here. -/
def pyFloatV : PyV → Option ℚ
  | PyV.num q => some q
  | PyV.str s => pyFloat s
  | _ => Option.none

/-- Python `str()` of a rational (stand-in for the float `repr`); the exact
text is never load-bearing in the claims — only that it is a deterministic
function of the value. -/
def ratPyRepr (q : ℚ) : String :=
  if q.den = 1 then toString q.num ++ ".0"
  else toString q.num ++ "/" ++ toString q.den

/-- Comma-join for `nodePyRepr`. -/
def joinComma : List String → String
  | [] => ""
  | [x] => x
  | x :: y :: rest => x ++ ", " ++ joinComma (y :: rest)

mutual
/-- Python `str()`/`repr()` of a decoded tree value, used when such a value
leaks into an f-string or a database column.  Quoting of embedded quotes is
not reproduced; no claim depends on the exact text. -/
def nodePyRepr : Node → String
  | Node.scalar s => "\x27" ++ s ++ "\x27"
  | Node.vals xs => "[" ++ joinComma (xs.map (fun x => "\x27" ++ x ++ "\x27")) ++ "]"
  | Node.block fs => "\x7b" ++ joinComma (fieldsPyRepr fs) ++ "\x7d"

/-- Entry list rendering for `nodePyRepr`. -/
def fieldsPyRepr : List (String × Node) → List String
  | [] => []
  | (k, v) :: rest => ("\x27" ++ k ++ "\x27: " ++ nodePyRepr v) :: fieldsPyRepr rest
end

/-- Python `str(x)` of an attribute value (top level: strings unquoted). -/
def pyStrV : PyV → String
  | PyV.none => "None"
  | PyV.num q => ratPyRepr q
  | PyV.str s => s
  | PyV.vals xs => nodePyRepr (Node.vals xs)
  | PyV.dict fs => nodePyRepr (Node.block fs)

/-! ## The record model (`models.py`) -/

/-- `ManufacturerInfo` (`models.py`).  `name` and `model` are filled from
the path-derived arguments at construction; the remaining attributes start
unset. -/
structure ManufacturerInfoR where
  name : PyV
  model : PyV
  series : PyV
  data_source : PyV
  year : PyV
  country_of_origin : PyV
deriving Repr

/-- `ManufacturerInfo(name=manufacturer, model=model)` as constructed at the
top of `map_pan_data`. -/
def initManufacturerInfo (name model : String) : ManufacturerInfoR :=
  ⟨PyV.str name, PyV.str model, PyV.none, PyV.none, PyV.none, PyV.none⟩

/-- `ElectricalParameters` (`models.py`): the attributes the mapper and the
repository read or write.  Note the declared IAM attributes: `iam_0`,
`iam_30`, `iam_45`, `iam_60`, `iam_70`, `iam_75`, `iam_80`, `iam_85`,
`iam_90` — there is no `iam_5`, `iam_10`, `iam_15`, `iam_20`, `iam_25`,
`iam_35` or `iam_40` field. -/
structure ElectricalParametersR where
  pmax_stc : PyV
  vmp_stc : PyV
  imp_stc : PyV
  voc_stc : PyV
  isc_stc : PyV
  temp_coeff_pmax : PyV
  temp_coeff_voc : PyV
  temp_coeff_isc : PyV
  g_ref : PyV
  t_ref : PyV
  noct : PyV
  bypass_diodes : PyV
  max_system_voltage : PyV
  r_series : PyV
  r_shunt : PyV
  bifaciality_factor : PyV
  iam_0 : PyV
  iam_30 : PyV
  iam_45 : PyV
  iam_60 : PyV
  iam_70 : PyV
  iam_75 : PyV
  iam_80 : PyV
  iam_85 : PyV
  iam_90 : PyV
deriving Repr

/-- `ElectricalParameters()` with its declared defaults (`g_ref = 1000.0`,
`t_ref = 25.0`, everything else `None`). -/
def initElectricalParameters : ElectricalParametersR :=
  { pmax_stc := PyV.none, vmp_stc := PyV.none, imp_stc := PyV.none,
    voc_stc := PyV.none, isc_stc := PyV.none,
    temp_coeff_pmax := PyV.none, temp_coeff_voc := PyV.none,
    temp_coeff_isc := PyV.none,
    g_ref := PyV.num 1000, t_ref := PyV.num 25,
    noct := PyV.none, bypass_diodes := PyV.none, max_system_voltage := PyV.none,
    r_series := PyV.none, r_shunt := PyV.none, bifaciality_factor := PyV.none,
    iam_0 := PyV.none, iam_30 := PyV.none, iam_45 := PyV.none,
    iam_60 := PyV.none, iam_70 := PyV.none, iam_75 := PyV.none,
    iam_80 := PyV.none, iam_85 := PyV.none, iam_90 := PyV.none }

/-- `PhysicalParameters` (`models.py`).  The `model_validator` that derives
`total_cells` and `area` runs at construction only; `map_pan_data`
constructs the empty record first and assigns afterwards, so in
mapper-produced records both stay unset. -/
structure PhysicalParametersR where
  width : PyV
  height : PyV
  thickness : PyV
  weight : PyV
  area : PyV
  cells_in_series : PyV
  cells_in_parallel : PyV
  total_cells : PyV
  cell_area : PyV
deriving Repr

/-- `PhysicalParameters()`: every attribute unset (the construction-time
validator finds nothing to derive). -/
def initPhysicalParameters : PhysicalParametersR :=
  { width := PyV.none, height := PyV.none, thickness := PyV.none,
    weight := PyV.none, area := PyV.none, cells_in_series := PyV.none,
    cells_in_parallel := PyV.none, total_cells := PyV.none,
    cell_area := PyV.none }

/-- `CertificationInfo` (`models.py`); the mapper never assigns to it. -/
structure CertificationInfoR where
  iec_61215 : Option Bool
  iec_61730 : Option Bool
  ul_listed : Option Bool
  ce_marking : Option Bool
  sandia_certified : Option Bool
  certifications : List String
deriving Repr

/-- `CertificationInfo()` defaults. -/
def initCertificationInfo : CertificationInfoR :=
  ⟨Option.none, Option.none, Option.none, Option.none, Option.none, []⟩

/-- `FileMetadata` (`models.py`).  Its declared attributes end at
`model_folder`: there is **no** `parser_version` field, although
`database.py` reads `module.file_metadata.parser_version` when building the
INSERT and UPDATE argument tuples. -/
structure FileMetadataR where
  file_path : String
  file_name : String
  file_size : ℕ
  file_hash : String
  last_modified : ℕ
  parsed_at : ℕ
  manufacturer_folder : Option String
  model_folder : Option String
deriving Repr

/-- `CellType` enumeration (`models.py`). -/
inductive CellTypeE where
  | monocrystalline
  | polycrystalline
  | thin_film
  | cis
  | cigs
  | cdte
  | perc
  | bifacial
  | hjt
  | ibc
  | unknown
deriving Repr, DecidableEq

/-- `ModuleType` enumeration (`models.py`). -/
inductive ModuleTypeE where
  | standard
  | bifacial
  | glass_glass
  | flexible
  | bipv
  | unknown
deriving Repr, DecidableEq

/-- `PVModule` (`models.py`). -/
structure PVModuleR where
  manufacturer_info : ManufacturerInfoR
  electrical_params : ElectricalParametersR
  physical_params : PhysicalParametersR
  certification_info : CertificationInfoR
  file_metadata : FileMetadataR
  cell_type : CellTypeE
  module_type : ModuleTypeE
  technology : PyV
  notes : Option String
  raw_data : List (String × Node)
deriving Repr

/-- The `PVModule.unique_id` property:
`f-string of name, model and the first 8 characters of the content hash`. -/
def unique_id (m : PVModuleR) : String :=
  pyStrV m.manufacturer_info.name ++ "_" ++ pyStrV m.manufacturer_info.model ++ "_" ++
    String.mk (m.file_metadata.file_hash.data.take 8)

/-! ## Numeric field parsing (`parse_numeric_value`) -/

/-- Python `value.replace(",", ".")`. -/
def pyReplaceCommaDot (s : String) : String :=
  String.mk (replaceChar (Char.ofNat 44) (Char.ofNat 46) s.data)

/-- `PANFileParser.parse_numeric_value` (`parser.py` lines 308-317): take the
first element when the value is a list, replace comma decimal separators
with a dot, parse as float; every failure path (`ValueError`, `TypeError`,
empty list, non-string non-list input) returns `None`.  Total: the Python
body catches every exception it can raise. -/
def parse_numeric_value : Node → Option ℚ
  | Node.vals (x :: _) => pyFloat (pyReplaceCommaDot x)
  | Node.vals [] => Option.none
  | Node.scalar s => pyFloat (pyReplaceCommaDot s)
  | Node.block _ => Option.none

/-! ## The field mapper (`map_pan_data`) -/

/-- `PANFileParser.FIELD_MAPPING` (`parser.py` lines 94-123), in source
order: `(pan_field, (target_object, target_attribute))`. -/
def FIELD_MAPPING : List (String × String × String) :=
  [("Manufacturer", "manufacturer_info", "name"),
   ("Model", "manufacturer_info", "model"),
   ("DataSource", "manufacturer_info", "data_source"),
   ("YearBeg", "manufacturer_info", "year"),
   ("Width", "physical_params", "width"),
   ("Height", "physical_params", "height"),
   ("Depth", "physical_params", "thickness"),
   ("Weight", "physical_params", "weight"),
   ("NCelS", "physical_params", "cells_in_series"),
   ("NCelP", "physical_params", "cells_in_parallel"),
   ("NDiode", "electrical_params", "bypass_diodes"),
   ("GRef", "electrical_params", "g_ref"),
   ("TRef", "electrical_params", "t_ref"),
   ("PNom", "electrical_params", "pmax_stc"),
   ("Isc", "electrical_params", "isc_stc"),
   ("Voc", "electrical_params", "voc_stc"),
   ("Imp", "electrical_params", "imp_stc"),
   ("Vmp", "electrical_params", "vmp_stc"),
   ("muISC", "electrical_params", "temp_coeff_isc"),
   ("muVocSpec", "electrical_params", "temp_coeff_voc"),
   ("muPmpReq", "electrical_params", "temp_coeff_pmax"),
   ("BifacialityFactor", "electrical_params", "bifaciality_factor"),
   ("RShunt", "electrical_params", "r_shunt"),
   ("RSerie", "electrical_params", "r_series"),
   ("VMaxIEC", "electrical_params", "max_system_voltage")]

/-- `PANFileParser.UNIT_CONVERSIONS` (`parser.py` lines 126-131): the factor
applied to a successfully parsed value for the given target attribute
(`0.1` is the float literal in the source, exactly `1/10` here). -/
def UNIT_CONVERSIONS (attr : String) : Option ℚ :=
  if attr = "width" then some 1000
  else if attr = "height" then some 1000
  else if attr = "thickness" then some 1000
  else if attr = "temp_coeff_voc" then some (mkRat 1 10)
  else Option.none

/-- `setattr(manufacturer_info, attr, v)` for the attributes named in
`FIELD_MAPPING`. -/
def setMiAttr (mi : ManufacturerInfoR) (attr : String) (v : PyV) : ManufacturerInfoR :=
  if attr = "name" then { mi with name := v }
  else if attr = "model" then { mi with model := v }
  else if attr = "data_source" then { mi with data_source := v }
  else if attr = "year" then { mi with year := v }
  else mi

/-- `setattr(physical_params, attr, v)` for the attributes named in
`FIELD_MAPPING`. -/
def setPpAttr (pp : PhysicalParametersR) (attr : String) (v : PyV) : PhysicalParametersR :=
  if attr = "width" then { pp with width := v }
  else if attr = "height" then { pp with height := v }
  else if attr = "thickness" then { pp with thickness := v }
  else if attr = "weight" then { pp with weight := v }
  else if attr = "cells_in_series" then { pp with cells_in_series := v }
  else if attr = "cells_in_parallel" then { pp with cells_in_parallel := v }
  else pp

/-- `setattr(electrical_params, attr, v)` for the attributes named in
`FIELD_MAPPING`. -/
def setEpAttr (ep : ElectricalParametersR) (attr : String) (v : PyV) : ElectricalParametersR :=
  if attr = "bypass_diodes" then { ep with bypass_diodes := v }
  else if attr = "g_ref" then { ep with g_ref := v }
  else if attr = "t_ref" then { ep with t_ref := v }
  else if attr = "pmax_stc" then { ep with pmax_stc := v }
  else if attr = "isc_stc" then { ep with isc_stc := v }
  else if attr = "voc_stc" then { ep with voc_stc := v }
  else if attr = "imp_stc" then { ep with imp_stc := v }
  else if attr = "vmp_stc" then { ep with vmp_stc := v }
  else if attr = "temp_coeff_isc" then { ep with temp_coeff_isc := v }
  else if attr = "temp_coeff_voc" then { ep with temp_coeff_voc := v }
  else if attr = "temp_coeff_pmax" then { ep with temp_coeff_pmax := v }
  else if attr = "bifaciality_factor" then { ep with bifaciality_factor := v }
  else if attr = "r_shunt" then { ep with r_shunt := v }
  else if attr = "r_series" then { ep with r_series := v }
  else if attr = "max_system_voltage" then { ep with max_system_voltage := v }
  else ep

/-- The three mapper targets threaded through the field loop. -/
structure MapTargets where
  mi : ManufacturerInfoR
  pp : PhysicalParametersR
  ep : ElectricalParametersR
deriving Repr

/-- The `target` dispatch plus `setattr` of the mapping loop body. -/
def setTargetAttr (t : MapTargets) (obj attr : String) (v : PyV) : MapTargets :=
  if obj = "manufacturer_info" then { t with mi := setMiAttr t.mi attr v }
  else if obj = "physical_params" then { t with pp := setPpAttr t.pp attr v }
  else if obj = "electrical_params" then { t with ep := setEpAttr t.ep attr v }
  else t

/-- Substring test, for Python `key in s` when `s` is a string. -/
def containsSub : List Char → List Char → Bool
  | [], needle => needle.isEmpty
  | c :: rest, needle => isPrefixChars needle (c :: rest) || containsSub rest needle

/-- Python `pan_field in data_source`: key lookup on a dict, substring test
on a string, membership on a list — matching what `in` does on each type
the decoder can produce. -/
def nodeContains : Node → String → Bool
  | Node.block fs, k => (dictFind fs k).isSome
  | Node.scalar s, k => containsSub s.data k.data
  | Node.vals xs, k => xs.contains k

/-- Python `data_source[pan_field]`: subscription succeeds only on a dict;
a string or list subscripted with a string key raises `TypeError`. -/
def getItem : Node → String → Except String Node
  | Node.block fs, k =>
      match dictFind fs k with
      | some v => Except.ok v
      | Option.none => Except.error "KeyError"
  | Node.scalar _, _ => Except.error "TypeError"
  | Node.vals _, _ => Except.error "TypeError"

/-- The body of the mapping loop (`parser.py` lines 337-357) for one
`FIELD_MAPPING` entry `(pan_field, target_object, target_attribute)`: if the
key is present, fetch the value (uncaught `TypeError` on a non-dict source
propagates), parse it numerically, apply the unit conversion on success and
assign the number; on parse failure assign the raw value unchanged. -/
def processEntry (ds : Node) (t : MapTargets) (e : String × String × String) :
    Except String MapTargets :=
  if nodeContains ds e.1 then
    match getItem ds e.1 with
    | Except.error err => Except.error err
    | Except.ok value =>
        match parse_numeric_value value with
        | some q =>
            let q2 :=
              match UNIT_CONVERSIONS e.2.2 with
              | some factor => rMul q factor
              | Option.none => q
            Except.ok (setTargetAttr t e.2.1 e.2.2 (PyV.num q2))
        | Option.none => Except.ok (setTargetAttr t e.2.1 e.2.2 (nodeToV value))
  else Except.ok t

/-- The inner `for pan_field ... in FIELD_MAPPING` loop over one data
source. -/
def processFields (ds : Node) (t : MapTargets) :
    List (String × String × String) → Except String MapTargets
  | [] => Except.ok t
  | e :: rest =>
      match processEntry ds t e with
      | Except.ok t2 => processFields ds t2 rest
      | Except.error err => Except.error err

/-- The IAM point value extraction inside the `try` (`parser.py`
lines 364-374): second element of the list (or of the comma-split string),
stripped and parsed as float; `IndexError`, `ValueError` and a non-list
non-string value all make the point yield nothing. -/
def iamPointValue : Node → Option ℚ
  | Node.vals xs =>
      match xs.get? 1 with
      | some x => pyFloat (pyStrip x)
      | Option.none => Option.none
  | Node.scalar s =>
      match (splitAll (Char.ofNat 44) s.data).get? 1 with
      | some p => pyFloat (String.mk (pyStripChars p))
      | Option.none => Option.none
  | Node.block _ => Option.none

/-- `setattr(electrical_params, f-string iam_5*(i-1), v)`: among the nine
computed attribute names `iam_0`, `iam_5`, ..., `iam_40`, only `iam_0`
(`i = 1`) and `iam_30` (`i = 7`) exist on `ElectricalParameters`; for every
other `i` pydantic raises `ValueError` (no such field), which the
surrounding `except (IndexError, ValueError, TypeError)` swallows, so the
assignment is silently dropped. -/
def iamAssign (ep : ElectricalParametersR) (i : ℕ) (q : ℚ) : ElectricalParametersR :=
  if 5 * (i - 1) = 0 then { ep with iam_0 := PyV.num q }
  else if 5 * (i - 1) = 30 then { ep with iam_30 := PyV.num q }
  else ep

/-- The nine `(i, f-string Point_i)` pairs of `for i in range(1, 10)`. -/
def IAM_POINTS : List (ℕ × String) :=
  [(1, "Point_1"), (2, "Point_2"), (3, "Point_3"), (4, "Point_4"),
   (5, "Point_5"), (6, "Point_6"), (7, "Point_7"), (8, "Point_8"),
   (9, "Point_9")]

/-- The IAM extraction loop (`parser.py` lines 361-377).  A `TypeError`
raised by subscripting a non-dict IAM value happens inside the `try` and is
caught, skipping the point. -/
def processIAMList (iam : Node) (ep : ElectricalParametersR) :
    List (ℕ × String) → ElectricalParametersR
  | [] => ep
  | (i, key) :: rest =>
      let ep2 :=
        if nodeContains iam key then
          match getItem iam key with
          | Except.error _ => ep
          | Except.ok pv =>
              match iamPointValue pv with
              | some q => iamAssign ep i q
              | Option.none => ep
        else ep
      processIAMList iam ep2 rest

/-- The `tech_map` lookup (`parser.py` lines 380-387) on a string key;
unmatched strings give `UNKNOWN`. -/
def techLookup (s : String) : CellTypeE :=
  if s = "mtSiMono" then CellTypeE.monocrystalline
  else if s = "mtSiPoly" then CellTypeE.polycrystalline
  else if s = "mtCIS" then CellTypeE.cigs
  else if s = "mtCdTe" then CellTypeE.cdte
  else CellTypeE.unknown

/-- The temperature-coefficient conversion block (`parser.py`
lines 389-395): when `temp_coeff_voc` and `voc_stc` are both truthy, the
stored coefficient — which the mapping loop already multiplied by the
`UNIT_CONVERSIONS` factor `0.1` — is multiplied by `0.1` again and divided
by `voc_stc`.  A truthy non-number in either attribute makes the arithmetic
raise `TypeError`, which nothing catches. -/
def vocConvert (ep : ElectricalParametersR) : Except String ElectricalParametersR :=
  if truthy ep.temp_coeff_voc && truthy ep.voc_stc then
    match ep.temp_coeff_voc, ep.voc_stc with
    | PyV.num q, PyV.num v =>
        Except.ok { ep with temp_coeff_voc := PyV.num (rDiv (rMul q (mkRat 1 10)) v) }
    | _, _ => Except.error "TypeError"
  else Except.ok ep

/-- The `set_module_type_based_on_properties` validator run when `PVModule`
is constructed (`models.py` lines 215-221): a truthy positive
`bifaciality_factor` makes the module bifacial; a truthy non-number makes
the `> 0` comparison raise `TypeError`. -/
def bifacialModuleType (ep : ElectricalParametersR) : Except String ModuleTypeE :=
  if truthy ep.bifaciality_factor then
    match ep.bifaciality_factor with
    | PyV.num q =>
        Except.ok (if 0 < q then ModuleTypeE.bifacial else ModuleTypeE.standard)
    | _ => Except.error "TypeError"
  else Except.ok ModuleTypeE.standard

/-- `PANFileParser.map_pan_data` (`parser.py` lines 319-407). Steps, in
source order: extract the root object when the top-level dict has an `""`
key (a non-dict there makes the later `.get` raise `AttributeError`);
process `FIELD_MAPPING` over the `Commercial` sub-dict and then over the
root (root wins on conflict); extract the IAM profile; look up the
technology string (`Technol` must be a string to be a hashable `tech_map`
key — a list or dict raises `TypeError`); run the Voc coefficient
conversion; construct the `PVModule`, whose validator fixes the module
type.  There is no identity check of any kind: `manufacturer` and `model`
arrive as arguments and are used as given. -/
def map_pan_data (pan_data : List (String × Node)) (manufacturer model : String)
    (fm : FileMetadataR) : Except String PVModuleR :=
  let fieldsE : Except String (List (String × Node)) :=
    match dictFind pan_data "" with
    | some (Node.block fs) => Except.ok fs
    | some _ => Except.error "AttributeError"
    | Option.none => Except.ok pan_data
  match fieldsE with
  | Except.error e => Except.error e
  | Except.ok fields =>
      let commercial := (dictFind fields "Commercial").getD (Node.block [])
      let t0 : MapTargets :=
        ⟨initManufacturerInfo manufacturer model, initPhysicalParameters,
          initElectricalParameters⟩
      match processFields commercial t0 FIELD_MAPPING with
      | Except.error e => Except.error e
      | Except.ok t1 =>
          match processFields (Node.block fields) t1 FIELD_MAPPING with
          | Except.error e => Except.error e
          | Except.ok t2 =>
              let iam := (dictFind fields "IAM").getD (Node.block [])
              let ep1 := processIAMList iam t2.ep IAM_POINTS
              let techE : Except String (String × CellTypeE) :=
                match dictFind fields "Technol" with
                | Option.none => Except.ok ("", CellTypeE.unknown)
                | some (Node.scalar s) => Except.ok (s, techLookup s)
                | some _ => Except.error "TypeError"
              match techE with
              | Except.error e => Except.error e
              | Except.ok tech =>
                  match vocConvert ep1 with
                  | Except.error e => Except.error e
                  | Except.ok ep2 =>
                      match bifacialModuleType ep2 with
                      | Except.error e => Except.error e
                      | Except.ok mt =>
                          Except.ok
                            { manufacturer_info := t2.mi,
                              electrical_params := ep2,
                              physical_params := t2.pp,
                              certification_info := initCertificationInfo,
                              file_metadata := fm,
                              cell_type := tech.2,
                              module_type := mt,
                              technology := PyV.str tech.1,
                              notes := Option.none,
                              raw_data := fields }

/-- `PANFileParser.extract_manufacturer_model_from_path` (`parser.py`
lines 192-220).  The path is presented as the list of parts of the path
relative to the base directory (`Option.none` when `relative_to` raises
`ValueError`) together with the file stem.  Total: every branch returns a
pair, falling back to `("Unknown", stem)`. -/
def extract_manufacturer_model_from_path (relParts : Option (List String))
    (stem : String) : String × String :=
  match relParts with
  | Option.none => ("Unknown", stem)
  | some (p0 :: p1 :: _ :: _) => (p0, p1)
  | some [p0, _] => (p0, stem)
  | some _ => ("Unknown", stem)

/-! ## The change-tracking registry (`parser.py`) -/

/-- `ParsedFileRegistry` (`models.py` lines 224-240): one stored outcome per
path. -/
structure ParsedFileRegistryR where
  file_path : String
  file_hash : String
  file_size : ℕ
  last_modified : ℕ
  parsed_at : ℕ
  parser_version : String
  success : Bool
  error_message : Option String
deriving Repr

/-- Registry dict lookup (path → entry). -/
def regFind : List (String × ParsedFileRegistryR) → String → Option ParsedFileRegistryR
  | [], _ => Option.none
  | (k0, v0) :: rest, k => if k0 = k then some v0 else regFind rest k

/-- Registry dict assignment, CPython semantics (overwrite in place or
append): last write wins. -/
def regSet : List (String × ParsedFileRegistryR) → String → ParsedFileRegistryR →
    List (String × ParsedFileRegistryR)
  | [], k, v => [(k, v)]
  | (k0, v0) :: rest, k, v =>
      if k0 = k then (k, v) :: rest else (k0, v0) :: regSet rest k v

/-- What `get_new_files` observes about a candidate file: either the
`stat`/hash calls raise (the `except` branch), or they yield the current
byte size, mtime and content hash (`calculate_file_hash` maps its own read
failures to the empty-string hash, which is just one possible hash value
here). -/
inductive FileStat where
  | err
  | ok (size : ℕ) (mtime : ℕ) (hash : String)
deriving Repr

/-- The per-file decision inside `PANFileParser.get_new_files` (`parser.py`
lines 222-250): `false` (skip) exactly when the loop hits `continue` —
a registry entry exists for the path and stored hash, stored size and prior
success all match; `true` (reprocess) otherwise, including the exception
branch, which appends the file anyway. -/
def needs_processing (registry : List (String × ParsedFileRegistryR))
    (path : String) (st : FileStat) : Bool :=
  match st with
  | FileStat.err => true
  | FileStat.ok size _mtime hash =>
      match regFind registry path with
      | Option.none => true
      | some entry =>
          !(entry.file_hash == hash && entry.file_size == size && entry.success)

/-- `PANFileParser.get_new_files`: keep the files that need processing. -/
def get_new_files (registry : List (String × ParsedFileRegistryR))
    (files : List (String × FileStat)) : List String :=
  (files.filter (fun f => needs_processing registry f.1 f.2)).map (fun f => f.1)

/-- The fingerprint data `update_registry` captures (its own `stat` and
hash calls; the file is assumed stable across the two reads within one
parse, which is the only case any claim exercises). -/
structure FingerprintR where
  hash : String
  size : ℕ
  mtime : ℕ
deriving Repr

/-- `PANFileParser.update_registry` (`parser.py` lines 423-435): upsert the
entry for the path with the current fingerprint, outcome and error text
(`parser_version` is the literal `"1.0.0"`). -/
def update_registry (reg : List (String × ParsedFileRegistryR)) (path : String)
    (fp : FingerprintR) (now : ℕ) (success : Bool) (error : String) :
    List (String × ParsedFileRegistryR) :=
  regSet reg path
    ⟨path, fp.hash, fp.size, fp.mtime, now, "1.0.0", success, some error⟩

/-- `ParsingResult` (`models.py`), restricted to the attributes the claims
observe. -/
structure ParsingResultR where
  success : Bool
  module : Option PVModuleR
  error_message : Option String
deriving Repr

/-- `PANFileParser.parse_file` (`parser.py` lines 437-480) as a transformer
of the in-memory registry.  `readResult` is what `read_pan_file` returned
(`Option.none` when no encoding worked); `fp`/`now` stand for the
`stat`/hash/clock reads of `update_registry`.  The two early-return
branches — unreadable content and empty parse structure — return a failure
result **without** touching the registry; a mapping success or a raised
mapping exception update it. -/
def parse_file (path : String) (readResult : Option String)
    (manufacturer model : String) (fm : FileMetadataR) (fp : FingerprintR)
    (now : ℕ) (reg : List (String × ParsedFileRegistryR)) :
    ParsingResultR × List (String × ParsedFileRegistryR) :=
  match readResult with
  | Option.none =>
      (⟨false, Option.none, some "Could not read file with any encoding"⟩, reg)
  | some content =>
      let pan := parse_pan_structure content
      if pan.isEmpty then
        (⟨false, Option.none, some "Failed to parse file structure"⟩, reg)
      else
        match map_pan_data pan manufacturer model fm with
        | Except.ok m =>
            (⟨true, some m, Option.none⟩, update_registry reg path fp now true "")
        | Except.error e =>
            (⟨false, Option.none, some e⟩, update_registry reg path fp now false e)

/-! ## The module repository (`database.py`) -/

/-- One row of the `pv_modules` table, column for column (schema at
`database.py` lines 43-101).  Value columns hold `PyV` because SQLite
receives whatever Python object the record attribute holds. -/
structure ModuleRow where
  id : ℕ
  unique_id : String
  manufacturer : PyV
  model : PyV
  series : PyV
  pmax_stc : PyV
  vmp_stc : PyV
  imp_stc : PyV
  voc_stc : PyV
  isc_stc : PyV
  temp_coeff_pmax : PyV
  temp_coeff_voc : PyV
  temp_coeff_isc : PyV
  noct : PyV
  max_system_voltage : PyV
  height : PyV
  width : PyV
  thickness : PyV
  weight : PyV
  cells_in_series : PyV
  cells_in_parallel : PyV
  total_cells : PyV
  cell_type : String
  module_type : String
  efficiency_stc : Option ℚ
  power_density : Option ℚ
  area_m2 : Option ℚ
  file_path : String
  file_name : String
  file_size : ℕ
  file_hash : String
  manufacturer_folder : Option String
  model_folder : Option String
  parsed_at : ℕ
  parser_version : Option String
  created_at : ℕ
  updated_at : ℕ
deriving Repr

/-- The relational store: the three tables of `init_database` plus the next
AUTOINCREMENT id. -/
structure DBState where
  modules : List ModuleRow
  certifications : List (ℕ × String × Bool)
  raw_pan_data : List (ℕ × String × String)
  nextId : ℕ
deriving Repr

/-- `PVModuleDatabase.module_exists`: `COUNT(*) > 0` on `unique_id`. -/
def module_exists (s : DBState) (uid : String) : Bool :=
  s.modules.any (fun r => r.unique_id == uid)

/-- `PVModuleDatabase.get_module_id_by_unique_id`: the id of the first row
with the given `unique_id`, if any. -/
def get_module_id_by_unique_id (s : DBState) (uid : String) : Option ℕ :=
  (s.modules.find? (fun r => r.unique_id == uid)).map (fun r => r.id)

/-- The derived-metric block that opens both `insert_module` and
`update_module` (`database.py` lines 181-198 and 275-292), verbatim:
`efficiency = power_density = area_m2 = None`; when `pmax_stc`, `height`
and `width` are all truthy, convert each with `float(...)` and compute
`area_m2 = height * width / 1_000_000`,
`efficiency = pmax / (area_m2 * 1000) * 100`,
`power_density = pmax / area_m2` inside a
`try ... except (ValueError, TypeError, ZeroDivisionError): pass` — so a
failed `float` leaves all three `None`, while a zero area (only reachable
when a truthy operand converts to zero) leaves `area_m2` already assigned
and aborts before `efficiency`.  Returns
`(efficiency, power_density, area_m2)`. -/
def derivedMetrics (pmax h w : PyV) : Option ℚ × Option ℚ × Option ℚ :=
  if truthy pmax && truthy h && truthy w then
    match pyFloatV h, pyFloatV w, pyFloatV pmax with
    | some hf, some wf, some pf =>
        let area := rDiv (rMul hf wf) 1000000
        if area = 0 then (Option.none, Option.none, some area)
        else (some (rMul (rDiv pf (rMul area 1000)) 100), some (rDiv pf area), some area)
    | _, _, _ => (Option.none, Option.none, Option.none)
  else (Option.none, Option.none, Option.none)

/-- The exception that ends every successful-path call of `insert_module`
and `update_module`: building the SQL argument tuple evaluates
`module.file_metadata.parser_version`, and `FileMetadata` declares no such
field (`models.py` lines 162-173), so pydantic raises `AttributeError`
before `cursor.execute` runs.  The surrounding `with sqlite3.connect`
block rolls back, so no row is written. -/
def attrErrParserVersion : String :=
  "AttributeError: FileMetadata object has no attribute parser_version"

/-- `PVModuleDatabase.update_module` (`database.py` lines 266-355): resolve
the id by `unique_id` (a falsy id — `None`, or a stored id of `0` — returns
`None` untouched); otherwise compute the derived metrics and build the
UPDATE argument tuple, which raises `AttributeError` at
`module.file_metadata.parser_version` before any statement executes — the
store is left unchanged and the exception propagates. -/
def update_module (m : PVModuleR) (s : DBState) :
    Except String (DBState × Option ℕ) :=
  match get_module_id_by_unique_id s (unique_id m) with
  | Option.none => Except.ok (s, Option.none)
  | some mid =>
      if mid = 0 then Except.ok (s, Option.none)
      else
        let _metrics := derivedMetrics m.electrical_params.pmax_stc
          m.physical_params.height m.physical_params.width
        Except.error attrErrParserVersion

/-- `PVModuleDatabase.insert_module` (`database.py` lines 158-264): when a
row with the module unique id exists, either delegate to `update_module`
(`update_if_exists`) or return the existing id with **no** write at all;
otherwise compute the derived metrics and build the INSERT argument tuple,
which raises `AttributeError` at `module.file_metadata.parser_version`
before `cursor.execute` runs — nothing is inserted and the exception
propagates to the caller. -/
def insert_module (m : PVModuleR) (update_if_exists : Bool) (s : DBState) :
    Except String (DBState × Option ℕ) :=
  if module_exists s (unique_id m) then
    if update_if_exists then update_module m s
    else Except.ok (s, get_module_id_by_unique_id s (unique_id m))
  else
    let _metrics := derivedMetrics m.electrical_params.pmax_stc
      m.physical_params.height m.physical_params.width
    Except.error attrErrParserVersion

/-! ## Concrete fixtures used by witnesses and counterexamples -/

/-- A mapper-shaped module record with the given identity and metadata and
every extracted field unset (what `map_pan_data` returns for a tree with no
mapped keys). -/
def baseModule (name mdl : String) (fm : FileMetadataR) : PVModuleR :=
  { manufacturer_info := initManufacturerInfo name mdl,
    electrical_params := initElectricalParameters,
    physical_params := initPhysicalParameters,
    certification_info := initCertificationInfo,
    file_metadata := fm,
    cell_type := CellTypeE.unknown,
    module_type := ModuleTypeE.standard,
    technology := PyV.str "",
    notes := Option.none,
    raw_data := [] }

/-- A `pv_modules` row with the given id and unique id and every other
column at a neutral value (rows only ever pre-exist in these states: the
write paths themselves never complete). -/
def blankRow (id : ℕ) (uid : String) : ModuleRow :=
  { id := id, unique_id := uid,
    manufacturer := PyV.none, model := PyV.none, series := PyV.none,
    pmax_stc := PyV.none, vmp_stc := PyV.none, imp_stc := PyV.none,
    voc_stc := PyV.none, isc_stc := PyV.none,
    temp_coeff_pmax := PyV.none, temp_coeff_voc := PyV.none,
    temp_coeff_isc := PyV.none, noct := PyV.none,
    max_system_voltage := PyV.none,
    height := PyV.none, width := PyV.none, thickness := PyV.none,
    weight := PyV.none, cells_in_series := PyV.none,
    cells_in_parallel := PyV.none, total_cells := PyV.none,
    cell_type := "unknown", module_type := "standard",
    efficiency_stc := Option.none, power_density := Option.none,
    area_m2 := Option.none,
    file_path := "", file_name := "", file_size := 0, file_hash := "",
    manufacturer_folder := Option.none, model_folder := Option.none,
    parsed_at := 0, parser_version := Option.none,
    created_at := 0, updated_at := 0 }

/-- The freshly initialised store. -/
def emptyDB : DBState := ⟨[], [], [], 1⟩

/-- Metadata fixture for the C1 module. -/
def fmC1 : FileMetadataR :=
  ⟨"base/ExampleCo/EX400/ex400.pan", "ex400.pan", 1000, "aaaabbbbccccdddd",
   0, 0, some "ExampleCo", some "EX400"⟩

/-- The module of the spec derived-metric example (`pmax = 400`,
`height = 1700`, `width = 1000`), additionally carrying a bogus stored
`area` of `99` to make visible that the repository recomputes the metrics
from `pmax`/`height`/`width` and ignores any area carried by the record. -/
def c1Module : PVModuleR :=
  { baseModule "ExampleCo" "EX400" fmC1 with
    electrical_params := { initElectricalParameters with pmax_stc := PyV.num 400 },
    physical_params := { initPhysicalParameters with
      height := PyV.num 1700, width := PyV.num 1000, area := PyV.num 99 } }

/-- Metadata fixture for the C9 module. -/
def fm9 : FileMetadataR :=
  ⟨"base/TestCo/X9/x9.pan", "x9.pan", 42, "0123456789abcdef", 0, 0,
   some "TestCo", some "X9"⟩

/-- A parsed module used to exercise both upsert paths. -/
def m9 : PVModuleR :=
  { baseModule "TestCo" "X9" fm9 with
    electrical_params := { initElectricalParameters with pmax_stc := PyV.num 410 },
    physical_params := { initPhysicalParameters with
      height := PyV.num 1722, width := PyV.num 1134 } }

/-- A store already holding the row for `m9` (so that a second upsert takes
the update path). -/
def db9 : DBState := ⟨[blankRow 1 "TestCo_X9_01234567"], [], [], 2⟩

/-- Metadata fixture for the C10 module. -/
def fm10 : FileMetadataR :=
  ⟨"base/SkipCo/S1/s1.pan", "s1.pan", 10, "fedcba9876543210", 0, 0,
   some "SkipCo", some "S1"⟩

/-- A module whose unique id is already present in `s10`. -/
def m10 : PVModuleR := baseModule "SkipCo" "S1" fm10

/-- A store holding the row for `m10` under id 7. -/
def s10 : DBState := ⟨[blankRow 7 "SkipCo_S1_fedcba98"], [], [], 8⟩

/-! ## Claim theorems -/

/-- Sanity checks of the float-parsing embedding: decimals, signs,
exponents, whitespace, and the failure cases. -/
theorem pyFloat_sanity :
    pyFloat "1.134" = some (mkRat 1134 1000) ∧
    pyFloat "-150" = some (-150 : ℚ) ∧
    pyFloat " 2e3 " = some (2000 : ℚ) ∧
    pyFloat "0.95" = some (mkRat 19 20) ∧
    pyFloat "abc" = Option.none ∧
    pyFloat "1,5" = Option.none :=
  ⟨rfl, rfl, rfl, rfl, rfl, rfl⟩

/-- C8: `decode` never raises on malformed input — witnessed by
`parse_pan_structure` being a total function whose Python body has no
unguarded raising operation — and the minimal synthetic block
`PVObject_Foo=Bar` / `Key=Value` / `End of PVObject Foo` decodes to exactly
the root `Foo` block with type tag `Bar` and scalar entry `Key = Value`;
a key-value line is split at the first `=`, as the second conjunct shows on
`A=B=C`. -/
theorem c8_decode_minimal_block :
    parse_pan_structure "PVObject_Foo=Bar\nKey=Value\nEnd of PVObject Foo" =
      [("Foo", Node.block [("__type__", Node.scalar "Bar"),
        ("Key", Node.scalar "Value")])] ∧
    parse_pan_structure "A=B=C" = [("A", Node.scalar "B=C")] :=
  ⟨rfl, rfl⟩

/-- C2: for a candidate file whose stat and hash reads succeed, the
change-tracking decision is skip (`needs_processing = false`) exactly when
a stored registry entry exists for the path whose content hash and byte
size both equal the current values and whose prior outcome was success;
any mismatch, missing entry, or prior failure reprocesses the file. -/
theorem c2_skip_iff_unchanged_success :
    ∀ (reg : List (String × ParsedFileRegistryR)) (path : String)
      (size mtime : ℕ) (hash : String),
      needs_processing reg path (FileStat.ok size mtime hash) = false ↔
        ∃ e, regFind reg path = some e ∧ e.file_hash = hash ∧
          e.file_size = size ∧ e.success = true := by
  intro reg path size mtime hash
  unfold needs_processing
  cases h : regFind reg path with
  | none => simp [h]
  | some e =>
      simp [h, Bool.not_eq_false, Bool.and_eq_true, beq_iff_eq]
      tauto

/-- C10: inserting a module whose unique id already exists, with
`update_if_exists = False`, performs no write at all — the returned store
is the input store, unchanged in every table — and returns the existing
database id (which exists) instead of raising a duplicate error. -/
theorem c10_skip_existing_returns_id :
    ∀ (m : PVModuleR) (s : DBState),
      module_exists s (unique_id m) = true →
        insert_module m false s =
          Except.ok (s, get_module_id_by_unique_id s (unique_id m)) ∧
        (get_module_id_by_unique_id s (unique_id m)).isSome = true := by
  intro m s h
  refine ⟨by simp [insert_module, h], ?_⟩
  have hfind : (s.modules.find? (fun r => r.unique_id == unique_id m)).isSome := by
    rw [List.find?_isSome]
    simpa [module_exists, List.any_eq_true] using h
  simpa [get_module_id_by_unique_id] using hfind

/-- C10 witness: the skip path at a concrete store and module. -/
theorem c10_skip_existing_returns_id_witness :
    module_exists s10 (unique_id m10) = true ∧
      (insert_module m10 false s10 =
        Except.ok (s10, get_module_id_by_unique_id s10 (unique_id m10)) ∧
       (get_module_id_by_unique_id s10 (unique_id m10)).isSome = true) :=
  ⟨rfl, c10_skip_existing_returns_id m10 s10 rfl⟩

/-- C9: the claimed idempotence of upserting a byte-identical file twice is
unattainable because no upsert ever completes: on a fresh store the insert
path, and on a store already holding the row the update path, both abort
with `AttributeError` while building the SQL argument tuple — `FileMetadata`
declares no `parser_version` field although `insert_module` and
`update_module` read `module.file_metadata.parser_version` — and the
transaction rolls back before anything is written. -/
theorem c9_upsert_always_aborts :
    insert_module m9 true emptyDB = Except.error attrErrParserVersion ∧
    insert_module m9 true db9 = Except.error attrErrParserVersion :=
  ⟨rfl, rfl⟩

/-- C1: the derived-metric block of every repository write computes, from
the record itself (only `pmax_stc`, `height` and `width` enter
`derivedMetrics` — the bogus stored area of `c1Module` is ignored), exactly
`area_m2 = height * width / 1e6`, `efficiency = pmax / (area * 1000) * 100`
and `power_density = pmax / area`, leaving all three null whenever an
operand is missing or zero (hence whenever the area would be zero), with no
division by zero since a nonzero area is established before dividing; but
the computed metrics are never stored: the insert aborts with
`AttributeError` (missing `FileMetadata.parser_version`) before the INSERT
executes, as the final conjunct shows on the spec example module
(`pmax = 400`, `height = 1700`, `width = 1000`). -/
theorem c1_derived_metrics_computed_never_stored :
    (∀ h w, derivedMetrics PyV.none h w = (Option.none, Option.none, Option.none)) ∧
    (∀ p w, derivedMetrics p PyV.none w = (Option.none, Option.none, Option.none)) ∧
    (∀ p h, derivedMetrics p h PyV.none = (Option.none, Option.none, Option.none)) ∧
    (∀ p w, derivedMetrics p (PyV.num 0) w = (Option.none, Option.none, Option.none)) ∧
    (∀ p h, derivedMetrics p h (PyV.num 0) = (Option.none, Option.none, Option.none)) ∧
    (∀ p h w : ℚ, p ≠ 0 → h ≠ 0 → w ≠ 0 →
      derivedMetrics (PyV.num p) (PyV.num h) (PyV.num w) =
        (some (p / (h * w / 1000000 * 1000) * 100),
         some (p / (h * w / 1000000)),
         some (h * w / 1000000)) ∧
      h * w / 1000000 ≠ 0) ∧
    derivedMetrics (PyV.num 400) (PyV.num 1700) (PyV.num 1000) =
      (some (400 / 17), some (4000 / 17), some (17 / 10)) ∧
    insert_module c1Module true emptyDB = Except.error attrErrParserVersion := by
  refine ⟨?_, ?_, ?_, ?_, ?_, ?_, ?_, ?_⟩
  · intro h w; simp [derivedMetrics, truthy]
  · intro p w; simp [derivedMetrics, truthy]
  · intro p h; simp [derivedMetrics, truthy]
  · intro p w; simp [derivedMetrics, truthy]
  · intro p h; simp [derivedMetrics, truthy]
  · intro p h w hp hh hw
    have harea : h * w / 1000000 ≠ 0 :=
      div_ne_zero (mul_ne_zero hh hw) (by norm_num)
    refine ⟨?_, harea⟩
    have hcond : (p != 0 && (h != 0 && w != 0)) = true := by
      simp [bne_iff_ne, hp, hh, hw]
    simp only [derivedMetrics, truthy, pyFloatV, rMul_eq, rDiv_eq, if_neg harea]
    simp [hcond]
    exact ⟨hp, hh, hw⟩
  · have hval : derivedMetrics (PyV.num 400) (PyV.num 1700) (PyV.num 1000) =
        (some (mkRat 400 17), some (mkRat 4000 17), some (mkRat 17 10)) := rfl
    rw [hval]
    norm_num [Rat.mkRat_eq_div]
  · rfl

/-- C1 witness: the formula conjunct applied at the spec example values,
with its nonzero hypotheses discharged. -/
theorem c1_derived_metrics_computed_never_stored_witness :
    derivedMetrics (PyV.num 400) (PyV.num 1700) (PyV.num 1000) =
      (some ((400 : ℚ) / (1700 * 1000 / 1000000 * 1000) * 100),
       some ((400 : ℚ) / (1700 * 1000 / 1000000)),
       some ((1700 : ℚ) * 1000 / 1000000)) ∧
    (1700 : ℚ) * 1000 / 1000000 ≠ 0 :=
  c1_derived_metrics_computed_never_stored.2.2.2.2.2.1 400 1700 1000
    (by norm_num) (by norm_num) (by norm_num)

/-- Metadata fixture for the C7 parse attempts. -/
def fm7 : FileMetadataR :=
  ⟨"base/M7/f7.pan", "f7.pan", 7, "77aa77aa77aa77aa", 0, 0, some "M7", some "f7"⟩

/-- Fingerprint fixture for the C7 parse attempts. -/
def fp7 : FingerprintR := ⟨"77aa77aa77aa77aa", 7, 0⟩

/-- The record mapped from the one-line content `Foo=Bar` (no mapped keys,
raw data retained). -/
def m7ok : PVModuleR :=
  { baseModule "M7" "f7" fm7 with raw_data := [("Foo", Node.scalar "Bar")] }

/-- Registry upsert resolves to the written entry. -/
theorem regFind_regSet (reg : List (String × ParsedFileRegistryR))
    (p : String) (v : ParsedFileRegistryR) : regFind (regSet reg p v) p = some v := by
  induction reg with
  | nil => simp [regSet, regFind]
  | cons kv rest ih =>
      by_cases h : kv.1 = p
      · simp [regSet, regFind, h]
      · simp [regSet, regFind, h, ih]

/-- C7 counterexample: a parse attempt on a file unreadable under every
encoding returns a failure result and leaves the registry untouched — here
the registry starts empty and still holds no entry for the path afterwards,
contradicting the claim that every parse attempt upserts an entry. -/
theorem c7_counterexample_unreadable_no_entry :
    parse_file "f7.pan" Option.none "M7" "f7" fm7 fp7 5 [] =
      (⟨false, Option.none, some "Could not read file with any encoding"⟩, []) ∧
    regFind (parse_file "f7.pan" Option.none "M7" "f7" fm7 fp7 5 []).2 "f7.pan" =
      Option.none :=
  ⟨rfl, rfl⟩

/-- C7 amended: the registry entry is upserted only for parse attempts that
get past reading and structure decoding: an unreadable file or an empty
decoded structure returns failure with the registry unchanged, while a
mapping success (entry with the fingerprint, success flag and empty error)
and a raised mapping exception (success flag false, the exception text)
both upsert the entry for the path. -/
theorem c7_amended_registry_update :
    ∀ (path content mfr mdl : String) (fm : FileMetadataR) (fp : FingerprintR)
      (now : ℕ) (reg : List (String × ParsedFileRegistryR)),
      (parse_file path Option.none mfr mdl fm fp now reg).2 = reg ∧
      (parse_pan_structure content = [] →
        (parse_file path (some content) mfr mdl fm fp now reg).2 = reg) ∧
      (∀ m, parse_pan_structure content ≠ [] →
        map_pan_data (parse_pan_structure content) mfr mdl fm = Except.ok m →
        (parse_file path (some content) mfr mdl fm fp now reg).2 =
          update_registry reg path fp now true "" ∧
        regFind (parse_file path (some content) mfr mdl fm fp now reg).2 path =
          some ⟨path, fp.hash, fp.size, fp.mtime, now, "1.0.0", true, some ""⟩) ∧
      (∀ e, parse_pan_structure content ≠ [] →
        map_pan_data (parse_pan_structure content) mfr mdl fm = Except.error e →
        (parse_file path (some content) mfr mdl fm fp now reg).2 =
          update_registry reg path fp now false e ∧
        regFind (parse_file path (some content) mfr mdl fm fp now reg).2 path =
          some ⟨path, fp.hash, fp.size, fp.mtime, now, "1.0.0", false, some e⟩) := by
  intro path content mfr mdl fm fp now reg
  refine ⟨rfl, ?_, ?_, ?_⟩
  · intro hpan
    simp [parse_file, hpan]
  · intro m hne hok
    have hempty : (parse_pan_structure content).isEmpty = false := by
      cases hp : parse_pan_structure content with
      | nil => exact absurd hp hne
      | cons a l => simp
    refine ⟨?_, ?_⟩ <;>
      simp [parse_file, hempty, hok, update_registry, regFind_regSet]
  · intro e hne herr
    have hempty : (parse_pan_structure content).isEmpty = false := by
      cases hp : parse_pan_structure content with
      | nil => exact absurd hp hne
      | cons a l => simp
    refine ⟨?_, ?_⟩ <;>
      simp [parse_file, hempty, herr, update_registry, regFind_regSet]

/-- C7 witness: the success path at the one-line content `Foo=Bar`, with
the nonemptiness and mapping hypotheses discharged concretely. -/
theorem c7_amended_registry_update_witness :
    (parse_file "f7.pan" (some "Foo=Bar") "M7" "f7" fm7 fp7 5 []).2 =
      update_registry [] "f7.pan" fp7 5 true "" ∧
    regFind (parse_file "f7.pan" (some "Foo=Bar") "M7" "f7" fm7 fp7 5 []).2 "f7.pan" =
      some ⟨"f7.pan", fp7.hash, fp7.size, fp7.mtime, 5, "1.0.0", true, some ""⟩ :=
  (c7_amended_registry_update "f7.pan" "Foo=Bar" "M7" "f7" fm7 fp7 5 []).2.2.1 m7ok
    (by
      intro h
      exact List.cons_ne_nil ("Foo", Node.scalar "Bar") []
        (((rfl : parse_pan_structure "Foo=Bar" =
          [("Foo", Node.scalar "Bar")]).symm.trans h)))
    rfl

/-- Metadata fixture for the C3 mapping. -/
def fm3 : FileMetadataR :=
  ⟨"base/u.pan", "u.pan", 3, "3333cccc3333cccc", 0, 0, Option.none, Option.none⟩

/-- C3 counterexample: mapping a decoded tree whose identity fields
`Manufacturer` and `Model` are absent (the tree holds only `PNom`) does not
fail — it succeeds, with the name taken from the path-derived argument —
refuting the claim that mapping fails exactly when the identity fields are
absent; no `MissingIdentityError` exists anywhere in the code. -/
theorem c3_counterexample_absent_identity_succeeds :
    (map_pan_data [("PNom", Node.scalar "400")] "Unknown" "u" fm3).toOption.map
      (fun r => (r.manufacturer_info.name, r.manufacturer_info.model,
        r.electrical_params.pmax_stc)) =
      some (PyV.str "Unknown", PyV.str "u", PyV.num 400) := rfl

/-- C3 amended: mapping cannot fail on account of missing identity — the
identity fields are always filled from the path-derived `manufacturer` and
`model` arguments, which `extract_manufacturer_model_from_path` totalises
with the `("Unknown", stem)` fallbacks — and a tree containing none of the
mapped keys yields the record with both identity fields set and every other
extracted field unset. -/
theorem c3_amended_identity_always_present :
    ∀ (mfr mdl stem : String) (fm : FileMetadataR),
      map_pan_data [] mfr mdl fm = Except.ok (baseModule mfr mdl fm) ∧
      (baseModule mfr mdl fm).manufacturer_info.name = PyV.str mfr ∧
      (baseModule mfr mdl fm).manufacturer_info.model = PyV.str mdl ∧
      extract_manufacturer_model_from_path Option.none stem = ("Unknown", stem) ∧
      extract_manufacturer_model_from_path (some [stem]) stem = ("Unknown", stem) :=
  fun _ _ _ _ => ⟨rfl, rfl, rfl, rfl, rfl⟩

/-- Metadata fixture for the C4 mappings. -/
def fm4 : FileMetadataR :=
  ⟨"base/M4/x4.pan", "x4.pan", 4, "4444dddd4444dddd", 0, 0, some "M4", some "x4"⟩

/-- C4 counterexample: mapping a tree with the unparsable width `abc`
(`parse_numeric_value` returns `None`) stores the raw string in the target
field — `width` ends up holding the string `abc`, not left unset as the
claim states. -/
theorem c4_counterexample_raw_value_assigned :
    (map_pan_data [("Width", Node.scalar "abc")] "M4" "x4" fm4).toOption.map
      (fun r => r.physical_params.width) = some (PyV.str "abc") ∧
    parse_numeric_value (Node.scalar "abc") = Option.none :=
  ⟨rfl, rfl⟩

/-- C4 amended: numeric parsing takes the first element when the raw value
is a list, replaces comma decimal separators with a dot, parses as float,
and never raises (it is a total function whose failure paths all return
`None`); but when the parse fails for a present field, the mapping loop
body assigns the raw value to the target attribute instead of leaving it
unset — shown both on the loop body (`processEntry`) and end to end on a
tree whose `Width` is the unparsable string `w1`. -/
theorem c4_amended_parse_and_raw_fallback :
    (∀ x xs, parse_numeric_value (Node.vals (x :: xs)) = pyFloat (pyReplaceCommaDot x)) ∧
    (∀ s, parse_numeric_value (Node.scalar s) = pyFloat (pyReplaceCommaDot s)) ∧
    parse_numeric_value (Node.vals []) = Option.none ∧
    (∀ fs, parse_numeric_value (Node.block fs) = Option.none) ∧
    (∀ (ds : Node) (t : MapTargets) (pf obj attr : String) (value : Node),
      nodeContains ds pf = true → getItem ds pf = Except.ok value →
      parse_numeric_value value = Option.none →
      processEntry ds t (pf, obj, attr) =
        Except.ok (setTargetAttr t obj attr (nodeToV value))) ∧
    (map_pan_data [("Width", Node.scalar "w1")] "M4" "x4" fm4).toOption.map
      (fun r => r.physical_params.width) = some (PyV.str "w1") := by
  refine ⟨fun x xs => rfl, fun s => rfl, rfl, fun fs => rfl, ?_, rfl⟩
  intro ds t pf obj attr value hc hg hp
  simp [processEntry, hc, hg, hp]

/-- C4 witness: the raw-value fallback of the loop body at a concrete
source, target and value, hypotheses discharged by evaluation. -/
theorem c4_amended_parse_and_raw_fallback_witness :
    processEntry (Node.block [("Width", Node.scalar "zz")])
        ⟨initManufacturerInfo "W" "w", initPhysicalParameters,
          initElectricalParameters⟩ ("Width", "physical_params", "width") =
      Except.ok (setTargetAttr
        ⟨initManufacturerInfo "W" "w", initPhysicalParameters,
          initElectricalParameters⟩ "physical_params" "width"
        (nodeToV (Node.scalar "zz"))) :=
  c4_amended_parse_and_raw_fallback.2.2.2.2.1
    (Node.block [("Width", Node.scalar "zz")]) _ "Width" "physical_params" "width"
    (Node.scalar "zz") rfl rfl rfl

/-- Metadata fixture for the C5 mapping. -/
def fm5 : FileMetadataR :=
  ⟨"base/M5/x5.pan", "x5.pan", 5, "5555eeee5555eeee", 0, 0, some "M5", some "x5"⟩

/-- C5: the dimension conversion matches the claim (`Height=1.134` maps to
`1134.0`), but the Voc temperature coefficient is multiplied by `0.1`
twice — once through `UNIT_CONVERSIONS` in the mapping loop and once more
in the conversion block before dividing by `voc_stc` — so raw
`muVocSpec=-150` with `Voc=50` is stored as `-150 * 0.1 * 0.1 / 50 = -0.03`
where the claimed single conversion would give `-150 * 0.1 / 50 = -0.3`. -/
theorem c5_voc_coefficient_converted_twice :
    (map_pan_data [("Height", Node.scalar "1.134"),
        ("muVocSpec", Node.scalar "-150"), ("Voc", Node.scalar "50")]
        "M5" "x5" fm5).toOption.map
      (fun r => (r.physical_params.height, r.electrical_params.temp_coeff_voc,
        r.electrical_params.voc_stc)) =
      some (PyV.num 1134, PyV.num (mkRat (-3) 100), PyV.num 50) ∧
    mkRat (-3) 100 = -150 * (1 / 10) * (1 / 10) / 50 ∧
    mkRat (-3) 100 ≠ -150 * (1 / 10) / 50 := by
  refine ⟨rfl, ?_, ?_⟩ <;> rw [Rat.mkRat_eq_div] <;> norm_num

/-- Metadata fixture for the C6 mapping. -/
def fm6 : FileMetadataR :=
  ⟨"base/M6/x6.pan", "x6.pan", 6, "6666ffff6666ffff", 0, 0, some "M6", some "x6"⟩

/-- An IAM block carrying all nine points, each a well-formed
`angle, iam_value` pair at the angles 0, 5, ..., 40. -/
def iamTree : List (String × Node) :=
  [("IAM", Node.block
    [("__type__", Node.scalar "pvIAM"),
     ("Point_1", Node.vals ["0", "1.0"]),
     ("Point_2", Node.vals ["5", "0.998"]),
     ("Point_3", Node.vals ["10", "0.995"]),
     ("Point_4", Node.vals ["15", "0.99"]),
     ("Point_5", Node.vals ["20", "0.98"]),
     ("Point_6", Node.vals ["25", "0.97"]),
     ("Point_7", Node.vals ["30", "0.95"]),
     ("Point_8", Node.vals ["35", "0.9"]),
     ("Point_9", Node.vals ["40", "0.8"])])]

/-- C6: of the nine IAM points, only `Point_1` (angle 0) and `Point_7`
(angle 30) are actually stored: the loop targets attributes
`iam_0, iam_5, ..., iam_40`, but `ElectricalParameters` declares none of
`iam_5` through `iam_25`, `iam_35` or `iam_40`, so those seven `setattr`
calls raise `ValueError` inside the `except` that was meant for malformed
points and the values are silently dropped; the declared attributes
`iam_45` through `iam_90` are never written at all. -/
theorem c6_iam_points_silently_dropped :
    (map_pan_data iamTree "M6" "x6" fm6).toOption.map
      (fun r => (r.electrical_params.iam_0, r.electrical_params.iam_30,
        (r.electrical_params.iam_45, r.electrical_params.iam_60,
         r.electrical_params.iam_70, r.electrical_params.iam_75,
         r.electrical_params.iam_80, r.electrical_params.iam_85,
         r.electrical_params.iam_90))) =
      some (PyV.num 1, PyV.num (mkRat 19 20),
        (PyV.none, PyV.none, PyV.none, PyV.none, PyV.none, PyV.none, PyV.none)) ∧
    mkRat 19 20 = (95 / 100 : ℚ) := by
  refine ⟨rfl, ?_⟩
  rw [Rat.mkRat_eq_div]
  norm_num
